import Mathlib

/-!
Verification of the Billplz payment webhook core (`src/payment_handler.py`).

Shallow embedding of the webhook authenticity-verification and transaction
state-transition logic of `payment_handler.py`:

* `verify_signature` (source lines 245-277): canonical string construction,
  collection-to-key resolution from the environment, HMAC-SHA256 and
  digest comparison.
* `handle_webhook` (source lines 177-242): body/bill-id validation, outcome
  mapping of the `paid` field, and the conditional MongoDB `update_one`
  merge keyed by `billplz.billId`.

Modelling boundaries (external collaborators of the core):
* `hmac.compare_digest` is modelled as string equality — constant-time
  execution is a non-functional property outside the embedding.
* `urllib.parse.parse_qs` is modelled with its default options (split on
  `&`, split each field once on `=`, drop blank values), without percent
  or plus decoding, which no claim depends on.
* Python exceptions are modelled with `Except` (for `verify_signature`,
  whose `key.encode` can raise on a `None` key) and with an explicit
  `updateRaises` failure flag for the MongoDB update call inside
  `handle_webhook`'s `try` block.
* Machine integers do not occur in the core; SHA-256 32-bit words are
  `Nat` reduced modulo `2 ^ 32`.
-/

set_option maxRecDepth 100000

/-! ## SHA-256 and HMAC-SHA256 (the `hashlib` / `hmac` collaborators) -/

/-- Truncate to a 32-bit word. -/
def w32 (x : Nat) : Nat := x % 4294967296

/-- Rotate a 32-bit word right by `n` positions. -/
def rotr32 (n x : Nat) : Nat := w32 ((x >>> n) ||| (x <<< (32 - n)))

/-- Bitwise complement within 32 bits. -/
def not32 (x : Nat) : Nat := 4294967295 ^^^ x

def sha256Ch (e f g : Nat) : Nat := (e &&& f) ^^^ (not32 e &&& g)

def sha256Maj (a b c : Nat) : Nat := (a &&& b) ^^^ (a &&& c) ^^^ (b &&& c)

def bigSigma0 (x : Nat) : Nat := rotr32 2 x ^^^ rotr32 13 x ^^^ rotr32 22 x

def bigSigma1 (x : Nat) : Nat := rotr32 6 x ^^^ rotr32 11 x ^^^ rotr32 25 x

def smallSigma0 (x : Nat) : Nat := rotr32 7 x ^^^ rotr32 18 x ^^^ (x >>> 3)

def smallSigma1 (x : Nat) : Nat := rotr32 17 x ^^^ rotr32 19 x ^^^ (x >>> 10)

/-- The 64 round constants of SHA-256 (FIPS 180-4), as decimal naturals. -/
def sha256K : List Nat :=
  [1116352408, 1899447441, 3049323471, 3921009573, 961987163, 1508970993,
   2453635748, 2870763221, 3624381080, 310598401, 607225278, 1426881987,
   1925078388, 2162078206, 2614888103, 3248222580, 3835390401, 4022224774,
   264347078, 604807628, 770255983, 1249150122, 1555081692, 1996064986,
   2554220882, 2821834349, 2952996808, 3210313671, 3336571891, 3584528711,
   113926993, 338241895, 666307205, 773529912, 1294757372, 1396182291,
   1695183700, 1986661051, 2177026350, 2456956037, 2730485921, 2820302411,
   3259730800, 3345764771, 3516065817, 3600352804, 4094571909, 275423344,
   430227734, 506948616, 659060556, 883997877, 958139571, 1322822218,
   1537002063, 1747873779, 1955562222, 2024104815, 2227730452, 2361852424,
   2428436474, 2756734187, 3204031479, 3329325298]

/-- Working state of the SHA-256 compression function. -/
structure Sha256State where
  a : Nat
  b : Nat
  c : Nat
  d : Nat
  e : Nat
  f : Nat
  g : Nat
  h : Nat
deriving DecidableEq, Repr

/-- The SHA-256 initial hash value. -/
def sha256Init : Sha256State :=
  ⟨1779033703, 3144134277, 1013904242, 2773480762,
   1359893119, 2600822924, 528734635, 1541459225⟩

/-- Big-endian encoding of `x` into `n` bytes. -/
def natToBytesBE : Nat → Nat → List Nat
  | 0, _ => []
  | n + 1, x => natToBytesBE n (x >>> 8) ++ [x &&& 255]

/-- Group bytes four at a time into big-endian 32-bit words. -/
def bytesToWordsBE : List Nat → List Nat
  | b0 :: b1 :: b2 :: b3 :: rest =>
      ((((b0 <<< 8) ||| b1) <<< 8 ||| b2) <<< 8 ||| b3) :: bytesToWordsBE rest
  | _ => []

/-- SHA-256 padding: append `0x80`, zeros to 56 mod 64, then the 64-bit
bit-length, big-endian. -/
def sha256Pad (msg : List Nat) : List Nat :=
  let r := msg.length % 64
  let zeros := (119 - r) % 64
  msg ++ (128 :: List.replicate zeros 0) ++ natToBytesBE 8 (msg.length * 8)

/-- Split a byte list into 64-byte blocks (fuel-based so that the kernel can
reduce it; `chunks64` supplies the list length as fuel). -/
def chunks64Fuel : Nat → List Nat → List (List Nat)
  | 0, _ => []
  | _, [] => []
  | fuel + 1, l => l.take 64 :: chunks64Fuel fuel (l.drop 64)

/-- Split a byte list into 64-byte blocks. -/
def chunks64 (l : List Nat) : List (List Nat) := chunks64Fuel l.length l

/-- Message-schedule extension: `acc` holds the words produced so far, most
recent first; `n` counts the remaining words to produce. -/
def sha256Extend (acc : List Nat) : Nat → List Nat
  | 0 => acc.reverse
  | n + 1 =>
      let w := w32 (acc.getD 15 0 + smallSigma0 (acc.getD 14 0) +
                    acc.getD 6 0 + smallSigma1 (acc.getD 1 0))
      sha256Extend (w :: acc) n

/-- One round of the SHA-256 compression function on a `(k, w)` pair. -/
def sha256Round (st : Sha256State) (kw : Nat × Nat) : Sha256State :=
  let t1 := w32 (st.h + bigSigma1 st.e + sha256Ch st.e st.f st.g + kw.1 + kw.2)
  let t2 := w32 (bigSigma0 st.a + sha256Maj st.a st.b st.c)
  ⟨w32 (t1 + t2), st.a, st.b, st.c, w32 (st.d + t1), st.e, st.f, st.g⟩

/-- Process one 64-byte block. -/
def sha256Block (hs : Sha256State) (block : List Nat) : Sha256State :=
  let ws := sha256Extend (bytesToWordsBE block).reverse 48
  let st := (sha256K.zip ws).foldl sha256Round hs
  ⟨w32 (hs.a + st.a), w32 (hs.b + st.b), w32 (hs.c + st.c), w32 (hs.d + st.d),
   w32 (hs.e + st.e), w32 (hs.f + st.f), w32 (hs.g + st.g), w32 (hs.h + st.h)⟩

/-- SHA-256 digest of a byte list, as 32 bytes. -/
def sha256Bytes (msg : List Nat) : List Nat :=
  let fin := (chunks64 (sha256Pad msg)).foldl sha256Block sha256Init
  ([fin.a, fin.b, fin.c, fin.d, fin.e, fin.f, fin.g, fin.h].map (natToBytesBE 4)).flatten

def hexDigitChar (n : Nat) : Char :=
  if n < 10 then Char.ofNat (48 + n) else Char.ofNat (87 + n)

def byteToHex (b : Nat) : String :=
  String.mk [hexDigitChar (b >>> 4), hexDigitChar (b &&& 15)]

def bytesToHex (bs : List Nat) : String := String.join (bs.map byteToHex)

/-- UTF-8 encoding of one character (the `str.encode` collaborator). -/
def utf8EncodeCharBytes (c : Char) : List Nat :=
  let n := c.toNat
  if n < 128 then [n]
  else if n < 2048 then [192 ||| (n >>> 6), 128 ||| (n &&& 63)]
  else if n < 65536 then
    [224 ||| (n >>> 12), 128 ||| ((n >>> 6) &&& 63), 128 ||| (n &&& 63)]
  else
    [240 ||| (n >>> 18), 128 ||| ((n >>> 12) &&& 63),
     128 ||| ((n >>> 6) &&& 63), 128 ||| (n &&& 63)]

/-- UTF-8 bytes of a string. -/
def strBytes (s : String) : List Nat := (s.data.map utf8EncodeCharBytes).flatten

/-- HMAC-SHA256 over byte lists (RFC 2104 with a 64-byte block). -/
def hmacSha256 (key msg : List Nat) : List Nat :=
  let k0 := if 64 < key.length then sha256Bytes key else key
  let kp := k0 ++ List.replicate (64 - k0.length) 0
  let ipadded := kp.map (fun b => b ^^^ 54)
  let opadded := kp.map (fun b => b ^^^ 92)
  sha256Bytes (opadded ++ sha256Bytes (ipadded ++ msg))

/-- Model of `hmac.new(key.encode, msg.encode, hashlib.sha256).hexdigest()`. -/
def hmacSha256Hex (key msg : String) : String :=
  bytesToHex (hmacSha256 (strBytes key) (strBytes msg))

/-- NIST test vector: SHA-256 of the empty message. -/
example : bytesToHex (sha256Bytes []) =
    "e3b0c44298fc1c149afbf4c8996fb92427ae41e4649b934ca495991b7852b855" := by decide

/-- NIST test vector: SHA-256 of "abc". -/
example : bytesToHex (sha256Bytes (strBytes "abc")) =
    "ba7816bf8f01cfea414140de5dae2223b00361a396177a9cb410ff61f20015ad" := by decide

/-- RFC 2202-style test vector for HMAC-SHA256. -/
example : hmacSha256Hex "key" "The quick brown fox jumps over the lazy dog" =
    "f7bc83f430538424b13298e6aa6fb143ef4d59a14946175997479dbc2d1a3cd8" := by decide

/-! ## Form-body parsing (the `urllib.parse.parse_qs` collaborator)

`parse_qs` with default options: fields split on `&`, each field split once
on `=`, fields with a blank value (or no `=`) dropped (`keep_blank_values`
is false), empty fields skipped.  The handler then takes the first value
for each key (`v[0]`), which `List.lookup` reproduces (first occurrence
wins).  Percent/plus decoding is not modelled; no claim depends on it. -/

/-- Split a character list on a separator character. -/
def splitOnChar (c : Char) : List Char → List Char → List (List Char)
  | [], acc => [acc.reverse]
  | x :: xs, acc =>
      if x = c then acc.reverse :: splitOnChar c xs []
      else splitOnChar c xs (x :: acc)

/-- Split a character list once at the first occurrence of `c`, or `none`
when `c` does not occur (`name_value.split('=', 1)`). -/
def splitOnceChar (c : Char) : List Char → Option (List Char × List Char)
  | [] => none
  | x :: xs =>
      if x = c then some ([], xs)
      else (splitOnceChar c xs).map fun p => (x :: p.1, p.2)

/-- One `key=value` field: empty fields, fields without `=`, and fields
with a blank value are dropped. -/
def parsePair (l : List Char) : Option (String × String) :=
  if l = [] then none
  else
    match splitOnceChar '=' l with
    | none => none
    | some (k, v) => if v = [] then none else some (String.mk k, String.mk v)

def parseForm (body : String) : List (String × String) :=
  (splitOnChar '&' body.data []).filterMap parsePair

/-! ## Data model

`Txn` is the MongoDB transaction document as written by `create_bill`
(source lines 113-124) and extended by its Billplz update (lines 151-162).
`billplz.paidAt`, `billplz.paidAmount` and `billplz.webhookPayload` are
carried as optional attributes so that the webhook claims about them can be
stated; `create_bill` never sets them. -/

structure Billplz where
  billId : Option String
  url : Option String
  paidAt : Option String
  paidAmount : Option String
  webhookPayload : Option String
deriving DecidableEq, Repr

structure Txn where
  _id : String
  userId : Option String
  serviceType : Option String
  description : Option String
  amount : Int
  currency : String
  status : String
  createdAt : String
  updatedAt : String
  metadata : String
  billplz : Option Billplz
deriving DecidableEq, Repr

/-- The MongoDB collection handle: its documents, plus a flag modelling the
`update_one` call raising an exception (caught by `handle_webhook`'s
`try`/`except`). -/
structure DBConn where
  docs : List Txn
  updateRaises : Bool
deriving DecidableEq, Repr

/-- The Lambda-style event: `event.get('body', '')` and
`event.get('headers', {})`. -/
structure Event where
  body : String
  headers : List (String × String)
deriving DecidableEq, Repr

/-- Outcome of `handle_webhook`: the HTTP-like response, the post-state of
the collection documents, and whether the `'No transaction found'` warning
(`result.modified_count == 0`) was logged. -/
structure WebhookResult where
  statusCode : Nat
  body : String
  docs : List Txn
  noMatchWarning : Bool
deriving DecidableEq, Repr

/-! ## Signature verification (`verify_signature`, source lines 245-277)

The environment-derived registry: `JPJ_COLLECTION_ID`, `TNB_COLLECTION_ID`
and the two signature keys, each `Option String` because
`os.environ.get` yields `None` for an unset variable.  Python's `==`
between two possibly-`None` values is exactly `Option` equality
(`None == None` is `True`). -/

structure Env where
  jpjCollectionId : Option String
  tnbCollectionId : Option String
  jpjKey : Option String
  tnbKey : Option String
deriving DecidableEq, Repr

/-- The twelve signed field names, in the source's fixed order. -/
def signKeys : List String :=
  ["amount", "collection_id", "due_at", "email", "id", "mobile", "name",
   "paid_amount", "paid_at", "paid", "state", "url"]

/-- Source line 256: `to_sign = "|".join([f"{k}{data.get(k, '')}" for k in keys])`. -/
def toSign (data : List (String × String)) : String :=
  String.intercalate "|" (signKeys.map fun k => k ++ ((data.lookup k).getD ""))

/-- The `if`/`elif`/`else` key resolution of source lines 259-266:
`some k` when a registry entry matched (with `k` the — possibly unset —
key variable), `none` when the collection id is unknown. -/
def resolveKey (env : Env) (data : List (String × String)) : Option (Option String) :=
  let collection_id := data.lookup "collection_id"
  if collection_id = env.jpjCollectionId then some env.jpjKey
  else if collection_id = env.tnbCollectionId then some env.tnbKey
  else none

/-- Model of `verify_signature(data, signature)`.  `Except.error` models an
uncaught Python exception: `key.encode('utf-8')` raises `AttributeError`
when the resolved key is `None` (its environment variable is unset).
`hmac.compare_digest` is modelled as equality of the two digest strings. -/
def verify_signature (env : Env) (data : List (String × String))
    (signature : Option String) : Except String Bool :=
  match signature with
  | none => .ok false
  | some s =>
    if s = "" then .ok false
    else
      match resolveKey env data with
      | none => .ok false
      | some none => .error "AttributeError"
      | some (some key) => .ok (hmacSha256Hex key (toSign data) == s)

/-! ## Webhook state transition (`handle_webhook`, source lines 177-242) -/

/-- Outcome mapping `webhook_data.get('paid') == 'true'` to the stored status
(source lines 213 and 220). -/
def webhookStatus (data : List (String × String)) : String :=
  if data.lookup "paid" = some "true" then "paid" else "failed"

/-- The MongoDB filter `{"billplz.billId": bill_id}`: matches a document
whose `billplz` sub-document exists with `billId` equal to the callback's
bill id. -/
def txnMatches (bill_id : String) (t : Txn) : Bool :=
  match t.billplz with
  | some b => b.billId == some bill_id
  | none => false

/-- The `$set` patch of source lines 221-226: `status`, `billplz.paidAt`,
`billplz.paidAmount`, `updatedAt`.  Dotted `$set` paths create the
`billplz` sub-document when missing (which cannot happen for a matched
document). -/
def applyPatch (t : Txn) (status : String) (paidAt paidAmount : Option String)
    (now : String) : Txn :=
  { t with
    status := status
    updatedAt := now
    billplz :=
      match t.billplz with
      | some b => some { b with paidAt := paidAt, paidAmount := paidAmount }
      | none => some ⟨none, none, paidAt, paidAmount, none⟩ }

/-- Model of `collection.update_one(filter, {"$set": patch})`: patches the first
matching document only, and returns the new document list together with
`modified_count` (1 only when the matched document actually changed). -/
def update_one (docs : List Txn) (bill_id status : String)
    (paidAt paidAmount : Option String) (now : String) : List Txn × Nat :=
  match docs with
  | [] => ([], 0)
  | t :: ts =>
    if txnMatches bill_id t then
      let t' := applyPatch t status paidAt paidAmount now
      (t' :: ts, if t' = t then 0 else 1)
    else
      let r := update_one ts bill_id status paidAt paidAmount now
      (t :: r.1, r.2)

/-- Model of `handle_webhook(event, context)` with an available client.  Mirrors the
source order: empty-body check, form parse, bill-id check, outcome mapping,
then the update.  The `x-signature` header is read at source line 203 but
the verification call at line 209 is commented out ("Temporarily skip
signature verification for debugging"), so the header does not influence
the result.  `conn.updateRaises` models the `update_one` call raising; the
surrounding `try`/`except` turns that into a 500 "Internal error". -/
def handle_webhook_conn (conn : DBConn) (ev : Event) (now : String) : WebhookResult :=
  let raw_body := ev.body
  if raw_body = "" then ⟨400, "Empty body", conn.docs, false⟩
  else
    let webhook_data := parseForm raw_body
    match webhook_data.lookup "id" with
    | none => ⟨400, "Missing bill ID", conn.docs, false⟩
    | some bill_id =>
      if bill_id = "" then ⟨400, "Missing bill ID", conn.docs, false⟩
      else
        let status := webhookStatus webhook_data
        if conn.updateRaises then ⟨500, "Internal error", conn.docs, false⟩
        else
          let r := update_one conn.docs bill_id status
            (webhook_data.lookup "paid_at") (webhook_data.lookup "paid_amount") now
          ⟨200, "OK", r.1, r.2 == 0⟩

/-- Full `handle_webhook` including the module-level client guard (source lines
181-183): an unavailable client yields 500 before any parsing. -/
def handle_webhook (client : Option DBConn) (ev : Event) (now : String) : WebhookResult :=
  match client with
  | none => ⟨500, "Database connection failed", [], false⟩
  | some conn => handle_webhook_conn conn ev now

deriving instance DecidableEq for Except

/-! ## Model validation on the scenario of section 8 of the spec -/

/-- The canonical string of the spec's section 8 scenario. -/
example : toSign [("id", "bill_1"), ("paid", "true"), ("amount", "1000"), ("collection_id", "C1")] =
    "amount1000|collection_idC1|due_at|email|idbill_1|mobile|name|paid_amount|paid_at|paidtrue|state|url" := by
  decide

/-- Spec section 8 scenario: the correct HMAC-SHA256 signature under key `K1` verifies. -/
example : verify_signature ⟨some "C1", some "C2", some "K1", some "K2"⟩
    [("id", "bill_1"), ("paid", "true"), ("amount", "1000"), ("collection_id", "C1")]
    (some "6450d96434234c4410fcc30a88521aa94b68ac8517bac3643decdf76daaf655e") = .ok true := by
  decide

/-- Spec section 8 scenario: a signature computed under the wrong key does not verify. -/
example : verify_signature ⟨some "C1", some "C2", some "K1", some "K2"⟩
    [("id", "bill_1"), ("paid", "true"), ("amount", "1000"), ("collection_id", "C1")]
    (some (hmacSha256Hex "K2"
      "amount1000|collection_idC1|due_at|email|idbill_1|mobile|name|paid_amount|paid_at|paidtrue|state|url")) =
    .ok false := by decide

/-! ## Helper lemmas -/

theorem applyPatch_status (t : Txn) (st : String) (pa pam : Option String) (now : String) :
    (applyPatch t st pa pam now).status = st := rfl

theorem txnMatches_applyPatch (b : String) (t : Txn) (st : String)
    (pa pam : Option String) (now : String) :
    txnMatches b (applyPatch t st pa pam now) = txnMatches b t := by
  cases h : t.billplz <;> simp [applyPatch, txnMatches, h]

theorem applyPatch_applyPatch (t : Txn) (st : String) (pa pam : Option String)
    (t1 t2 : String) :
    applyPatch (applyPatch t st pa pam t1) st pa pam t2 = applyPatch t st pa pam t2 := by
  cases h : t.billplz <;> simp [applyPatch, h]

/-- Running `update_one` with a filter no document matches leaves the collection
unchanged and reports `modified_count = 0`. -/
theorem update_one_no_match (docs : List Txn) (b st : String)
    (pa pam : Option String) (now : String)
    (h : ∀ t ∈ docs, txnMatches b t = false) :
    update_one docs b st pa pam now = (docs, 0) := by
  induction docs with
  | nil => rfl
  | cons t ts ih =>
      have ht : txnMatches b t = false := h t (by simp)
      have hts : ∀ t' ∈ ts, txnMatches b t' = false := fun t' h' => h t' (by simp [h'])
      simp [update_one, ht, ih hts]

/-- Every document in the post-state of `update_one` either keeps its
status or carries the written status. -/
theorem update_one_statuses (docs : List Txn) (b st : String)
    (pa pam : Option String) (now : String) :
    List.Forall₂ (fun t t' => t'.status = t.status ∨ t'.status = st)
      docs (update_one docs b st pa pam now).1 := by
  induction docs with
  | nil => exact List.Forall₂.nil
  | cons t ts ih =>
      by_cases h : txnMatches b t = true
      · simp only [update_one, h, if_true]
        exact List.Forall₂.cons (Or.inr rfl)
          (List.forall₂_same.mpr fun x _ => Or.inl rfl)
      · simp only [update_one, h, if_false, Bool.false_eq_true]
        exact List.Forall₂.cons (Or.inl rfl) ih

/-- Reapplying `update_one` with the same filter and `$set` values (a
fresh timestamp aside, which is overwritten) reproduces the single
application: the document list converges. -/
theorem update_one_twice (docs : List Txn) (b st : String)
    (pa pam : Option String) (t1 t2 : String) :
    (update_one (update_one docs b st pa pam t1).1 b st pa pam t2).1 =
      (update_one docs b st pa pam t2).1 := by
  induction docs with
  | nil => rfl
  | cons t ts ih =>
      by_cases h : txnMatches b t = true
      · simp only [update_one, h, if_true, txnMatches_applyPatch, applyPatch_applyPatch]
      · simp only [update_one, h, if_false, Bool.false_eq_true]
        simpa using ih

/-- The statuses written by `update_one` do not depend on the timestamp. -/
theorem update_one_status_map (docs : List Txn) (b st : String)
    (pa pam : Option String) (t1 t2 : String) :
    (update_one docs b st pa pam t1).1.map Txn.status =
      (update_one docs b st pa pam t2).1.map Txn.status := by
  induction docs with
  | nil => rfl
  | cons t ts ih =>
      by_cases h : txnMatches b t = true
      · simp only [update_one, h, if_true, List.map_cons, applyPatch_status]
      · simp only [update_one, h, if_false, Bool.false_eq_true, List.map_cons]
        simpa using ih

theorem handle_webhook_some (conn : DBConn) (ev : Event) (now : String) :
    handle_webhook (some conn) ev now = handle_webhook_conn conn ev now := rfl

theorem hw_conn_empty (conn : DBConn) (ev : Event) (now : String) (h : ev.body = "") :
    handle_webhook_conn conn ev now = ⟨400, "Empty body", conn.docs, false⟩ := by
  simp [handle_webhook_conn, h]

theorem hw_conn_noid (conn : DBConn) (ev : Event) (now : String)
    (h1 : ev.body ≠ "") (h2 : (parseForm ev.body).lookup "id" = none) :
    handle_webhook_conn conn ev now = ⟨400, "Missing bill ID", conn.docs, false⟩ := by
  simp [handle_webhook_conn, h1, h2]

theorem hw_conn_blankid (conn : DBConn) (ev : Event) (now : String)
    (h1 : ev.body ≠ "") (h2 : (parseForm ev.body).lookup "id" = some "") :
    handle_webhook_conn conn ev now = ⟨400, "Missing bill ID", conn.docs, false⟩ := by
  simp [handle_webhook_conn, h1, h2]

theorem hw_conn_raise (conn : DBConn) (ev : Event) (now : String) (b : String)
    (h1 : ev.body ≠ "") (h2 : (parseForm ev.body).lookup "id" = some b)
    (h3 : b ≠ "") (h4 : conn.updateRaises = true) :
    handle_webhook_conn conn ev now = ⟨500, "Internal error", conn.docs, false⟩ := by
  simp [handle_webhook_conn, h1, h2, h3, h4]

theorem hw_conn_update (conn : DBConn) (ev : Event) (now : String) (b : String)
    (h1 : ev.body ≠ "") (h2 : (parseForm ev.body).lookup "id" = some b)
    (h3 : b ≠ "") (h4 : conn.updateRaises = false) :
    handle_webhook_conn conn ev now =
      ⟨200, "OK",
       (update_one conn.docs b (webhookStatus (parseForm ev.body))
         ((parseForm ev.body).lookup "paid_at")
         ((parseForm ev.body).lookup "paid_amount") now).1,
       (update_one conn.docs b (webhookStatus (parseForm ev.body))
         ((parseForm ev.body).lookup "paid_at")
         ((parseForm ev.body).lookup "paid_amount") now).2 == 0⟩ := by
  simp [handle_webhook_conn, h1, h2, h3, h4]

/-! ## Claims -/
def c1Txn : Txn :=
  ⟨"txn_1", some "user_1", some "road_tax", some "JPJ road tax", 1000, "MYR", "pending",
   "2026-01-01T00:00:00", "2026-01-01T00:00:00", "",
   some ⟨some "bill_1", some "https://billplz.example/b1", none, none, none⟩⟩
/-- C1 (code bug): the source comments out the `verify_signature` call
("Temporarily skip signature verification for debugging", lines 208-209),
so a callback with **no signature at all** (the event carries no
`x-signature`/`X-Signature` header) is not rejected with a 400: it is
accepted with a 200 and the pending transaction is transitioned to
`paid`.  This contradicts the claimed control flow (reject before any
state change), which the spec itself flags as the mandated behaviour. -/
theorem c1_unsigned_callback_still_updates_state :
    (⟨"id=bill_1&paid=true", []⟩ : Event).headers = [] ∧
    (handle_webhook (some ⟨[c1Txn], false⟩) ⟨"id=bill_1&paid=true", []⟩
        "2026-01-02T00:00:00").statusCode = 200 ∧
    (handle_webhook (some ⟨[c1Txn], false⟩) ⟨"id=bill_1&paid=true", []⟩
        "2026-01-02T00:00:00").docs.map Txn.status = ["paid"] := by
  exact ⟨rfl, rfl, by decide⟩
/-- C2 counterexample: with a known collection id whose signing-key
environment variable is unset (resolved key absent), `verify_signature`
does not return `false` — it raises (`key.encode('utf-8')` on `None`),
so "returns false and never throws whenever ... the resolved signing key
is empty or absent" fails on the code. -/
theorem c2_counterexample_absent_key_raises :
    verify_signature ⟨some "JPJ-1", some "TNB-1", none, some "tnb-key"⟩
      [("collection_id", "JPJ-1"), ("id", "bill_1")] (some "deadbeef") =
      Except.error "AttributeError" := rfl
/-- C2 (amended): `verify_signature` fails closed on the signature
side: for every callback-fields mapping it returns `false` and never
throws whenever the received signature is empty or absent.  (The key-side
guard claimed by the spec is not in the code.) -/
theorem c2_amended_missing_signature_fails_closed (env : Env)
    (data : List (String × String)) (sig : Option String)
    (h : sig = none ∨ sig = some "") :
    verify_signature env data sig = .ok false := by
  rcases h with h | h <;> subst h <;> simp [verify_signature]
theorem c2_amended_witness :
    ((some "" : Option String) = none ∨ (some "" : Option String) = some "") ∧
    verify_signature ⟨some "C1", some "C2", some "K1", some "K2"⟩
      [("collection_id", "C1")] (some "") = .ok false :=
  ⟨Or.inr rfl, c2_amended_missing_signature_fails_closed _ _ _ (Or.inr rfl)⟩
/-- Reduction of `verify_signature` in the resolved-key case to the digest
comparison. -/
theorem verify_signature_resolved (env : Env) (data : List (String × String))
    (s key : String) (hres : resolveKey env data = some (some key)) (hs : s ≠ "") :
    verify_signature env data (some s) =
      .ok (hmacSha256Hex key (toSign data) == s) := by
  unfold verify_signature
  rw [hres]
  show (if s = "" then Except.ok false
        else Except.ok (hmacSha256Hex key (toSign data) == s)) =
      Except.ok (hmacSha256Hex key (toSign data) == s)
  rw [if_neg hs]

/-- C3: with a known collection id (a registry entry resolves, with
key present) and non-empty signature and key, `verify_signature` returns
`true` iff the received signature equals the hexadecimal HMAC-SHA256
digest, under the resolved key, of the string joining `"{field}{value}"`
for the twelve fields in the fixed order with separator `"|"`, an absent
field contributing the empty string. -/
theorem c3_verify_iff_hmac_of_canonical_string (env : Env)
    (data : List (String × String)) (s key : String)
    (hres : resolveKey env data = some (some key)) (hs : s ≠ "") (hk : key ≠ "") :
    (verify_signature env data (some s) = .ok true ↔
      s = hmacSha256Hex key (String.intercalate "|"
        ["amount" ++ ((data.lookup "amount").getD ""),
         "collection_id" ++ ((data.lookup "collection_id").getD ""),
         "due_at" ++ ((data.lookup "due_at").getD ""),
         "email" ++ ((data.lookup "email").getD ""),
         "id" ++ ((data.lookup "id").getD ""),
         "mobile" ++ ((data.lookup "mobile").getD ""),
         "name" ++ ((data.lookup "name").getD ""),
         "paid_amount" ++ ((data.lookup "paid_amount").getD ""),
         "paid_at" ++ ((data.lookup "paid_at").getD ""),
         "paid" ++ ((data.lookup "paid").getD ""),
         "state" ++ ((data.lookup "state").getD ""),
         "url" ++ ((data.lookup "url").getD "")])) := by
  suffices h : verify_signature env data (some s) = .ok true ↔
      s = hmacSha256Hex key (toSign data) by exact h
  rw [verify_signature_resolved env data s key hres hs]
  constructor
  · intro h
    have hb : (hmacSha256Hex key (toSign data) == s) = true := by injection h
    exact (beq_iff_eq.mp hb).symm
  · intro h
    rw [h, beq_self_eq_true]

theorem c3_witness :
    resolveKey ⟨some "C1", some "C2", some "K1", some "K2"⟩
        [("collection_id", "C1"), ("id", "bill_1")] = some (some "K1") ∧
    ("not-the-digest" ≠ "") ∧ ("K1" ≠ "") ∧
    (verify_signature ⟨some "C1", some "C2", some "K1", some "K2"⟩
        [("collection_id", "C1"), ("id", "bill_1")] (some "not-the-digest") = .ok true ↔
      "not-the-digest" = hmacSha256Hex "K1"
        (toSign [("collection_id", "C1"), ("id", "bill_1")])) :=
  ⟨rfl, by decide, by decide,
   c3_verify_iff_hmac_of_canonical_string _ _ _ _ rfl (by decide) (by decide)⟩
/-- C9: a collection id matching no registry entry makes
`verify_signature` fail closed with `false` (the digest branch is never
reached), for every signature value. -/
theorem c9_unknown_collection_fails_closed (env : Env)
    (data : List (String × String)) (sig : Option String)
    (h1 : data.lookup "collection_id" ≠ env.jpjCollectionId)
    (h2 : data.lookup "collection_id" ≠ env.tnbCollectionId) :
    verify_signature env data sig = .ok false := by
  have hres : resolveKey env data = none := by
    simp [resolveKey, h1, h2]
  cases sig with
  | none => rfl
  | some s => by_cases hs : s = "" <;> simp [verify_signature, hs, hres]
theorem c9_witness :
    ([("collection_id", "X")].lookup "collection_id" ≠
      (⟨some "A", some "B", some "KA", some "KB"⟩ : Env).jpjCollectionId) ∧
    ([("collection_id", "X")].lookup "collection_id" ≠
      (⟨some "A", some "B", some "KA", some "KB"⟩ : Env).tnbCollectionId) ∧
    verify_signature ⟨some "A", some "B", some "KA", some "KB"⟩
      [("collection_id", "X")] (some "anything") = .ok false :=
  ⟨by decide, by decide,
   c9_unknown_collection_fails_closed _ _ _ (by decide) (by decide)⟩

/-- The attributes of a transaction document that the webhook update must
not touch. -/
def immutable_frame (t t' : Txn) : Prop :=
  t'._id = t._id ∧ t'.userId = t.userId ∧ t'.serviceType = t.serviceType ∧
  t'.description = t.description ∧ t'.amount = t.amount ∧ t'.currency = t.currency ∧
  t'.createdAt = t.createdAt ∧ t'.metadata = t.metadata ∧
  t'.billplz.map Billplz.billId = t.billplz.map Billplz.billId ∧
  t'.billplz.map Billplz.url = t.billplz.map Billplz.url ∧
  t'.billplz.map Billplz.webhookPayload = t.billplz.map Billplz.webhookPayload

theorem immutable_frame_refl (t : Txn) : immutable_frame t t := by
  simp [immutable_frame]

/-- Merge relation between a pre-state document and its post-state
counterpart: the frame is preserved; an unmatched document is untouched;
the matched document carries the written status, paid audit fields and
refreshed timestamp. -/
def webhookMerge (b st : String) (pa pam : Option String) (now : String)
    (t t' : Txn) : Prop :=
  immutable_frame t t' ∧
  (txnMatches b t = false → t' = t) ∧
  (txnMatches b t = true →
    t'.status = st ∧
    t'.billplz.map Billplz.paidAt = some pa ∧
    t'.billplz.map Billplz.paidAmount = some pam ∧
    t'.updatedAt = now)

/-- Lemma: `update_one` realises the conditional merge when at most one document
matches the filter (the spec's key-uniqueness invariant). -/
theorem update_one_merge (docs : List Txn) (b st : String)
    (pa pam : Option String) (now : String)
    (huniq : (docs.filter (txnMatches b)).length ≤ 1) :
    List.Forall₂ (webhookMerge b st pa pam now)
      docs (update_one docs b st pa pam now).1 := by
  induction docs with
  | nil => exact List.Forall₂.nil
  | cons t ts ih =>
      by_cases h : txnMatches b t = true
      · have hts : ∀ x ∈ ts, txnMatches b x = false := by
          have hlen : (ts.filter (txnMatches b)).length = 0 := by
            rw [List.filter_cons_of_pos h] at huniq
            simpa using huniq
          have hnil : ts.filter (txnMatches b) = [] := List.length_eq_zero.mp hlen
          intro x hx
          by_contra hc
          have hxt : txnMatches b x = true := by
            cases hxx : txnMatches b x
            · exact absurd hxx hc
            · rfl
          have : x ∈ ts.filter (txnMatches b) := List.mem_filter.mpr ⟨hx, hxt⟩
          simp [hnil] at this
        simp only [update_one, h, if_true]
        refine List.Forall₂.cons ?_ ?_
        · refine ⟨?_, ?_, ?_⟩
          · cases hb : t.billplz with
            | none => simp [txnMatches, hb] at h
            | some bb => simp [immutable_frame, applyPatch, hb]
          · intro hf; exact absurd (h.symm.trans hf) (by decide)
          · intro _
            cases hb : t.billplz with
            | none => simp [txnMatches, hb] at h
            | some bb => simp [applyPatch, hb]
        · exact List.forall₂_same.mpr fun x hx =>
            ⟨immutable_frame_refl x, fun _ => rfl,
             fun htrue => absurd ((hts x hx).symm.trans htrue) (by decide)⟩
      · have hfalse : txnMatches b t = false := by
          cases hxx : txnMatches b t
          · rfl
          · exact absurd hxx h
        have huniq' : (ts.filter (txnMatches b)).length ≤ 1 := by
          rw [List.filter_cons_of_neg (by simp [hfalse])] at huniq
          exact huniq
        simp only [update_one, h, if_false, Bool.false_eq_true]
        exact List.Forall₂.cons
          ⟨immutable_frame_refl t, fun _ => rfl,
           fun htrue => absurd (hfalse.symm.trans htrue) (by decide)⟩
          (ih huniq')

def c4Txn : Txn :=
  ⟨"txn_9", some "user_9", none, none, 500, "MYR", "pending", "T0", "T0", "",
   some ⟨some "bill_9", some "https://billplz.example/b9", none, none, some "OLD-PAYLOAD"⟩⟩

/-- C4 counterexample: the update does **not** set
`billplz.webhookPayload` to the raw callback — after processing
`"id=bill_9&paid=true"` the matched document still carries its previous
`webhookPayload` value, which differs from the raw callback body. -/
theorem c4_counterexample_webhookPayload_not_written :
    ((handle_webhook (some ⟨[c4Txn], false⟩) ⟨"id=bill_9&paid=true", []⟩ "T1").docs.map
      (fun t => t.billplz.map Billplz.webhookPayload)) = [some (some "OLD-PAYLOAD")] ∧
    some (some "OLD-PAYLOAD") ≠
      some (some (⟨"id=bill_9&paid=true", []⟩ : Event).body) := by
  exact ⟨by decide, by decide⟩

/-- C4 (amended): the webhook update is a conditional merge matched by
`billplz.billId == id` that sets `status`, `billplz.paidAt`,
`billplz.paidAmount` and refreshes `updatedAt`, while leaving `_id`
(transaction id), `amount`, `userId` and every other attribute — including
`billplz.webhookPayload`, which the code never writes — unchanged, and
leaving unmatched documents untouched. -/
theorem c4_amended_conditional_merge (conn : DBConn) (ev : Event) (now : String)
    (b : String)
    (hraise : conn.updateRaises = false) (hbody : ev.body ≠ "")
    (hid : (parseForm ev.body).lookup "id" = some b) (hb : b ≠ "")
    (huniq : (conn.docs.filter (txnMatches b)).length ≤ 1) :
    List.Forall₂
      (webhookMerge b (webhookStatus (parseForm ev.body))
        ((parseForm ev.body).lookup "paid_at")
        ((parseForm ev.body).lookup "paid_amount") now)
      conn.docs (handle_webhook (some conn) ev now).docs := by
  rw [handle_webhook_some, hw_conn_update conn ev now b hbody hid hb hraise]
  exact update_one_merge conn.docs b _ _ _ now huniq

theorem c4_amended_witness :
    List.Forall₂
      (webhookMerge "bill_9" (webhookStatus (parseForm "id=bill_9&paid=true"))
        ((parseForm "id=bill_9&paid=true").lookup "paid_at")
        ((parseForm "id=bill_9&paid=true").lookup "paid_amount") "T1")
      [c4Txn]
      (handle_webhook (some ⟨[c4Txn], false⟩) ⟨"id=bill_9&paid=true", []⟩ "T1").docs :=
  c4_amended_conditional_merge ⟨[c4Txn], false⟩ ⟨"id=bill_9&paid=true", []⟩ "T1" "bill_9"
    rfl (by decide) rfl (by decide) (by decide)

/-- C5: the target status is determined solely by string comparison of
the `paid` field — `"true"` gives `paid`, anything else (including an
absent or malformed field) gives `failed` — and webhook processing never
writes any status other than these two: every post-state document either
keeps its previous status or carries `webhookStatus` of the parsed body. -/
theorem c5_paid_field_determines_status (conn : DBConn) (ev : Event) (now : String)
    (d : List (String × String)) :
    (webhookStatus d = "paid" ↔ d.lookup "paid" = some "true") ∧
    (d.lookup "paid" ≠ some "true" → webhookStatus d = "failed") ∧
    List.Forall₂
      (fun t t' => t'.status = t.status ∨ t'.status = webhookStatus (parseForm ev.body))
      conn.docs (handle_webhook (some conn) ev now).docs := by
  refine ⟨?_, ?_, ?_⟩
  · by_cases h : d.lookup "paid" = some "true" <;> simp [webhookStatus, h]
  · intro h; simp [webhookStatus, h]
  · rw [handle_webhook_some]
    by_cases h1 : ev.body = ""
    · rw [hw_conn_empty conn ev now h1]
      exact List.forall₂_same.mpr fun x _ => Or.inl rfl
    · rcases h2 : (parseForm ev.body).lookup "id" with _ | b
      · rw [hw_conn_noid conn ev now h1 h2]
        exact List.forall₂_same.mpr fun x _ => Or.inl rfl
      · by_cases h3 : b = ""
        · subst h3
          rw [hw_conn_blankid conn ev now h1 h2]
          exact List.forall₂_same.mpr fun x _ => Or.inl rfl
        · by_cases h4 : conn.updateRaises = true
          · rw [hw_conn_raise conn ev now b h1 h2 h3 h4]
            exact List.forall₂_same.mpr fun x _ => Or.inl rfl
          · have h4' : conn.updateRaises = false := by
              cases hcr : conn.updateRaises
              · rfl
              · exact absurd hcr h4
            rw [hw_conn_update conn ev now b h1 h2 h3 h4']
            exact update_one_statuses conn.docs b _ _ _ now

theorem c5_witness :
    webhookStatus [("paid", "true")] = "paid" ∧
    webhookStatus [("paid", "xyz")] = "failed" ∧
    webhookStatus [] = "failed" :=
  ⟨(c5_paid_field_determines_status ⟨[], false⟩ ⟨"", []⟩ "" [("paid", "true")]).1.mpr rfl,
   (c5_paid_field_determines_status ⟨[], false⟩ ⟨"", []⟩ "" [("paid", "xyz")]).2.1 (by decide),
   (c5_paid_field_determines_status ⟨[], false⟩ ⟨"", []⟩ "" []).2.1 (by decide)⟩

/-- C7: when the update path is reached and no stored transaction
matches the callback's bill id, processing is not an error: a 200 "OK"
acknowledgment is returned, the no-match warning (`modified_count == 0`)
is logged, and the document list is unchanged. -/
theorem c7_no_match_is_not_an_error (conn : DBConn) (ev : Event) (now : String)
    (b : String)
    (hraise : conn.updateRaises = false) (hbody : ev.body ≠ "")
    (hid : (parseForm ev.body).lookup "id" = some b) (hb : b ≠ "")
    (hnomatch : ∀ t ∈ conn.docs, txnMatches b t = false) :
    handle_webhook (some conn) ev now = ⟨200, "OK", conn.docs, true⟩ := by
  rw [handle_webhook_some, hw_conn_update conn ev now b hbody hid hb hraise,
      update_one_no_match conn.docs b _ _ _ now hnomatch]
  rfl

def c7Txn : Txn :=
  ⟨"txn_7", some "user_7", none, none, 1, "MYR", "pending", "T0", "T0", "",
   some ⟨some "bill_7", none, none, none, none⟩⟩

theorem c7_witness :
    handle_webhook (some ⟨[c7Txn], false⟩) ⟨"id=bill_unknown&paid=true", []⟩ "T1" =
      ⟨200, "OK", [c7Txn], true⟩ :=
  c7_no_match_is_not_an_error ⟨[c7Txn], false⟩ ⟨"id=bill_unknown&paid=true", []⟩ "T1"
    "bill_unknown" rfl (by decide) rfl (by decide) (by decide)

/-- C8: an empty request body is rejected with 400 "Empty body" before
any processing, and a parsed callback without an `id` field is rejected
with 400 "Missing bill ID"; in both cases the stored documents are
untouched (no update is attempted). -/
theorem c8_missing_bill_id_and_empty_body_rejected (conn : DBConn) (ev : Event)
    (now : String) :
    (ev.body = "" →
      handle_webhook (some conn) ev now = ⟨400, "Empty body", conn.docs, false⟩) ∧
    (ev.body ≠ "" → (parseForm ev.body).lookup "id" = none →
      handle_webhook (some conn) ev now = ⟨400, "Missing bill ID", conn.docs, false⟩) :=
  ⟨fun h => by rw [handle_webhook_some, hw_conn_empty conn ev now h],
   fun h1 h2 => by rw [handle_webhook_some, hw_conn_noid conn ev now h1 h2]⟩

theorem c8_witness :
    handle_webhook (some ⟨[], false⟩) ⟨"", []⟩ "T1" = ⟨400, "Empty body", [], false⟩ ∧
    handle_webhook (some ⟨[], false⟩) ⟨"paid=true", []⟩ "T1" =
      ⟨400, "Missing bill ID", [], false⟩ :=
  ⟨(c8_missing_bill_id_and_empty_body_rejected ⟨[], false⟩ ⟨"", []⟩ "T1").1 rfl,
   (c8_missing_bill_id_and_empty_body_rejected ⟨[], false⟩ ⟨"paid=true", []⟩ "T1").2
     (by decide) rfl⟩

/-- The update-path case of webhook reapplication: the second application
collapses onto a single application at the later timestamp. -/
theorem handle_webhook_twice_update_case (conn : DBConn) (ev : Event) (t1 t2 : String)
    (h1 : ev.body ≠ "") (b : String) (h2 : (parseForm ev.body).lookup "id" = some b)
    (h3 : b ≠ "") (h4' : conn.updateRaises = false) :
    (handle_webhook (some ⟨(handle_webhook (some conn) ev t1).docs, conn.updateRaises⟩)
        ev t2).docs = (handle_webhook (some conn) ev t2).docs ∧
    (handle_webhook (some ⟨(handle_webhook (some conn) ev t1).docs, conn.updateRaises⟩)
        ev t2).docs.map Txn.status =
      (handle_webhook (some conn) ev t1).docs.map Txn.status := by
  simp only [handle_webhook_some]
  rw [hw_conn_update conn ev t1 b h1 h2 h3 h4']
  show (handle_webhook_conn
      ⟨(update_one conn.docs b (webhookStatus (parseForm ev.body))
          ((parseForm ev.body).lookup "paid_at")
          ((parseForm ev.body).lookup "paid_amount") t1).1, conn.updateRaises⟩ ev t2).docs =
      (handle_webhook_conn conn ev t2).docs ∧
    (handle_webhook_conn
      ⟨(update_one conn.docs b (webhookStatus (parseForm ev.body))
          ((parseForm ev.body).lookup "paid_at")
          ((parseForm ev.body).lookup "paid_amount") t1).1, conn.updateRaises⟩ ev t2).docs.map Txn.status =
      (update_one conn.docs b (webhookStatus (parseForm ev.body))
          ((parseForm ev.body).lookup "paid_at")
          ((parseForm ev.body).lookup "paid_amount") t1).1.map Txn.status
  rw [hw_conn_update
      (⟨(update_one conn.docs b (webhookStatus (parseForm ev.body))
          ((parseForm ev.body).lookup "paid_at")
          ((parseForm ev.body).lookup "paid_amount") t1).1, conn.updateRaises⟩ : DBConn)
      ev t2 b h1 h2 h3 h4',
     hw_conn_update conn ev t2 b h1 h2 h3 h4']
  constructor
  · exact update_one_twice conn.docs b _ _ _ t1 t2
  · show (update_one (update_one conn.docs b (webhookStatus (parseForm ev.body))
          ((parseForm ev.body).lookup "paid_at")
          ((parseForm ev.body).lookup "paid_amount") t1).1 b (webhookStatus (parseForm ev.body))
          ((parseForm ev.body).lookup "paid_at")
          ((parseForm ev.body).lookup "paid_amount") t2).1.map Txn.status =
        (update_one conn.docs b (webhookStatus (parseForm ev.body))
          ((parseForm ev.body).lookup "paid_at")
          ((parseForm ev.body).lookup "paid_amount") t1).1.map Txn.status
    rw [update_one_twice conn.docs b _ _ _ t1 t2]
    exact update_one_status_map conn.docs b _ _ _ t2 t1

/-- C6: applying the same webhook twice (same parsed callback, fresh
timestamps `t1` then `t2`) converges — the document list after the second
application equals the list a single application at `t2` produces (so the
only observable difference is the refreshed `updatedAt` audit field), and
the stored statuses after the second application equal those after the
first. -/
theorem c6_reapplication_converges (conn : DBConn) (ev : Event) (t1 t2 : String) :
    (handle_webhook (some ⟨(handle_webhook (some conn) ev t1).docs, conn.updateRaises⟩)
        ev t2).docs = (handle_webhook (some conn) ev t2).docs ∧
    (handle_webhook (some ⟨(handle_webhook (some conn) ev t1).docs, conn.updateRaises⟩)
        ev t2).docs.map Txn.status =
      (handle_webhook (some conn) ev t1).docs.map Txn.status := by
  by_cases h1 : ev.body = ""
  · simp only [handle_webhook_some]
    simp [hw_conn_empty, h1]
  · rcases h2 : (parseForm ev.body).lookup "id" with _ | b
    · simp only [handle_webhook_some]
      simp [hw_conn_noid, h1, h2]
    · by_cases h3 : b = ""
      · subst h3
        simp only [handle_webhook_some]
        simp [hw_conn_blankid, h1, h2]
      · by_cases h4 : conn.updateRaises = true
        · simp only [handle_webhook_some]
          simp [hw_conn_raise, h1, h2, h3, h4]
        · have h4p : conn.updateRaises = false := by
            cases hcr : conn.updateRaises
            · rfl
            · exact absurd hcr h4
          exact handle_webhook_twice_update_case conn ev t1 t2 h1 b h2 h3 h4p

/-- C10: `handle_webhook` is total at its public interface: the status
code is always 200, 400 or 500; an unavailable client yields 500 before
any parsing; and an exception in the database update is caught and yields
500 "Internal error" with the documents unchanged. -/
theorem c10_total_interface (client : Option DBConn) (ev : Event) (now : String) :
    ((handle_webhook client ev now).statusCode = 200 ∨
     (handle_webhook client ev now).statusCode = 400 ∨
     (handle_webhook client ev now).statusCode = 500) ∧
    (client = none →
      handle_webhook client ev now = ⟨500, "Database connection failed", [], false⟩) ∧
    (∀ conn : DBConn, client = some conn → conn.updateRaises = true → ev.body ≠ "" →
      ∀ b : String, (parseForm ev.body).lookup "id" = some b → b ≠ "" →
      handle_webhook client ev now = ⟨500, "Internal error", conn.docs, false⟩) := by
  refine ⟨?_, ?_, ?_⟩
  · cases client with
    | none => exact Or.inr (Or.inr rfl)
    | some conn =>
        rw [handle_webhook_some]
        by_cases h1 : ev.body = ""
        · rw [hw_conn_empty conn ev now h1]; exact Or.inr (Or.inl rfl)
        · rcases h2 : (parseForm ev.body).lookup "id" with _ | b
          · rw [hw_conn_noid conn ev now h1 h2]; exact Or.inr (Or.inl rfl)
          · by_cases h3 : b = ""
            · subst h3
              rw [hw_conn_blankid conn ev now h1 h2]; exact Or.inr (Or.inl rfl)
            · by_cases h4 : conn.updateRaises = true
              · rw [hw_conn_raise conn ev now b h1 h2 h3 h4]; exact Or.inr (Or.inr rfl)
              · have h4' : conn.updateRaises = false := by
                  cases hcr : conn.updateRaises
                  · rfl
                  · exact absurd hcr h4
                rw [hw_conn_update conn ev now b h1 h2 h3 h4']
                exact Or.inl rfl
  · rintro rfl; rfl
  · rintro conn rfl h4 h1 b h2 h3
    rw [handle_webhook_some, hw_conn_raise conn ev now b h1 h2 h3 h4]

theorem c10_witness :
    handle_webhook (some ⟨[], true⟩) ⟨"id=bill_1&paid=true", []⟩ "T1" =
      ⟨500, "Internal error", [], false⟩ :=
  (c10_total_interface (some ⟨[], true⟩) ⟨"id=bill_1&paid=true", []⟩ "T1").2.2
    ⟨[], true⟩ rfl rfl (by decide) "bill_1" rfl (by decide)
